import Mathlib

/-!
Verification of the transviz differential state synchronization engine.

The definitions below are a shallow embedding of the JavaScript sources:
  * src/unnamed/part_003 (diffHelpers): generateDiff, compressSparseDiff,
    createFullDiff, validateDiff, applySparseUpdate, applyTensorDiff;
  * src/ui/src/utils/tensorUtils.js: validateShape;
  * src/unnamed/part_002 (validationHelpers): validateWebSocketMessage;
  * src/ui/src/stores/globalStore.js: handleTensorFull,
    handleTensorDiffOrUpdate;
  * src/ui/src/stores/metricsStore.js: addMetricData;
  * src/unnamed/part_005 and src/ui/src/services/wsClient.js:
    WebSocketClient (connect, handleClose, scheduleReconnect, close).

Numeric buffer elements are modelled as rationals; every comparison and
arithmetic operation appearing in the embedded code paths is exact on the
inputs used, so the control flow of the model matches the control flow of
the JavaScript on those inputs.
-/

namespace Transviz

/-- Buffer elements (JS numbers) are modelled as rationals. -/
abbrev Scalar := ℚ

/-- A tensor diff as produced and consumed by diffHelpers (part_003).
The JS object is tagged by the string field diff.type; sparse carries
indices and values, dense carries a replacement data buffer, and any
other tag (for example no_change) falls into the default branch of the
switch statements, modelled by the other constructor. -/
inductive Diff where
  | sparse (indices : List Int) (values : List Scalar)
  | dense (data : List Scalar)
  | other (tag : String)
deriving DecidableEq

/-- shape.reduce((a, b) => a * b, 1): the number of elements of a dense
tensor of the given shape (product of the dims, 1 for a scalar shape). -/
def elementCount (shape : List Nat) : Nat :=
  shape.foldl (fun a b => a * b) 1

/-- validateDiff (part_003 lines 121-141).  For a sparse diff it errors
when some index satisfies idx >= elementCount, then when the values and
indices lengths differ; for a dense diff it errors when the payload
length differs from elementCount (validateShape, tensorUtils.js); any
other tag hits the default branch and errors with Unknown diff type. -/
def validateDiff : Diff → List Nat → Except String Unit
  | Diff.sparse indices values, shape =>
    if indices.any (fun idx => decide ((elementCount shape : Int) ≤ idx)) then
      Except.error "Diff index out of bounds"
    else if values.length ≠ indices.length then
      Except.error "Values and indices length mismatch"
    else
      Except.ok ()
  | Diff.dense data, shape =>
    if data.length ≠ elementCount shape then
      Except.error "Shape requires a different element count"
    else
      Except.ok ()
  | Diff.other _, _ => Except.error "Unknown diff type"

/-- The stride table computed by applySparseUpdate (part_003 lines
36-40): strides[rank - 1] = 1 and strides[i] = strides[i + 1] *
shape[i + 1], i.e. stride d is the product of the dims after d. -/
def strides (shape : List Nat) : List Int :=
  (List.range shape.length).map
    (fun d => (((shape.drop (d + 1)).foldl (fun a b => a * b) 1 : Nat) : Int))

/-- The flat index computed for update j by applySparseUpdate (part_003
lines 46-49): index = sum over d < rank of indices[j * rank + d] *
strides[d].  A read past the end of indices yields undefined in JS and
poisons the sum to NaN; that is modelled by none, and a NaN index makes
the subsequent typed array write a no-op. -/
def ndIndex (indices : List Int) (shape : List Nat) (j : Nat) : Option Int :=
  (List.range shape.length).foldl
    (fun acc d =>
      match acc, indices.get? (j * shape.length + d) with
      | some a, some idx => some (a + idx * ((strides shape).getD d 0))
      | _, _ => none)
    (some 0)

/-- A single JS typed array element write targetData[i] = v: stores only
when i is a canonical in-range index, otherwise it is a no-op (typed
arrays ignore out-of-range and non-integer keyed writes). -/
def tarrayWrite (data : List Scalar) (i : Int) (v : Scalar) : List Scalar :=
  if 0 ≤ i ∧ i < (data.length : Int) then data.set i.toNat v else data

/-- applySparseUpdate (part_003 lines 27-53).  The batching loop visits
each j in 0 .. indices.length - 1 once, in order, and performs
targetData[index] = diff.values[j] (line 50): an assignment, not an
addition.  After validateDiff has accepted the diff the values list has
the same length as the indices list, so the values read never misses. -/
def applySparseUpdate (targetData : List Scalar) (indices : List Int)
    (values : List Scalar) (shape : List Nat) : List Scalar :=
  (List.range indices.length).foldl
    (fun data j =>
      match ndIndex indices shape j, values.get? j with
      | some idx, some v => tarrayWrite data idx v
      | _, _ => data)
    targetData

/-- The per-position change test of generateDiff (part_003 lines 68-74):
Math.abs(newData[i] - oldData[i]) > threshold.  When newData is shorter
than oldData the JS read gives undefined, the delta is NaN, and the
comparison is false. -/
def changedAt (oldData newData : List Scalar) (threshold : Scalar) (i : Nat) : Bool :=
  if i < newData.length then
    decide (threshold < |newData.getD i 0 - oldData.getD i 0|)
  else
    false

/-- The changes array accumulated by the first pass of generateDiff:
the positions i < oldData.length whose delta exceeds the threshold,
in increasing order. -/
def changedIndices (oldData newData : List Scalar) (threshold : Scalar) : List Nat :=
  (List.range oldData.length).filter (changedAt oldData newData threshold)

/-- generateDiff (part_003 lines 62-105).  Returns null (none) when no
element changed; otherwise compares sparsity = changes.length /
oldData.length against maxSparsity and emits either the sparse diff of
compressSparseDiff, whose values are the deltas newData[i] - oldData[i],
or the dense diff of createFullDiff carrying a copy of newData.  The JS
defaults are threshold = 0.01 and maxSparsity = 0.5. -/
def generateDiff (oldData newData : List Scalar)
    (threshold maxSparsity : Scalar) : Option Diff :=
  let changes := changedIndices oldData newData threshold
  if changes.isEmpty then
    none
  else if ((changes.length : Scalar) / (oldData.length : Scalar)) ≤ maxSparsity then
    some (Diff.sparse (changes.map (fun i => (i : Int)))
      (changes.map (fun i => newData.getD i 0 - oldData.getD i 0)))
  else
    some (Diff.dense newData)

/-- Tensor entity metadata as stored by the stores (globalStore.js). -/
structure Metadata where
  version : Nat
  shape : List Nat
  dtype : String
  device : String
  lastUpdated : Nat
deriving DecidableEq

/-- A tensor entity: flat data buffer plus metadata. -/
structure Tensor where
  data : List Scalar
  metadata : Metadata
deriving DecidableEq

/-- TypedArray.prototype.set(source): copies source into the target from
offset 0 and throws a RangeError when the source is longer than the
target; on success the tail of the target beyond the source survives. -/
def typedArraySetAll (target source : List Scalar) : Except String (List Scalar) :=
  if source.length ≤ target.length then
    Except.ok (source ++ target.drop source.length)
  else
    Except.error "RangeError: source array is too long"

/-- applyTensorDiff (part_003 lines 148-163): validates the diff against
the entity shape, then applies it (sparse via applySparseUpdate, dense
via tensor.data.set), then increments tensor.metadata.version (line 161)
and stamps lastUpdated with the current time.  A thrown validation or
RangeError leaves the entity untouched because it occurs before any
mutation. -/
def applyTensorDiff (tensor : Tensor) (diff : Diff) (now : Nat) : Except String Tensor :=
  match validateDiff diff tensor.metadata.shape with
  | Except.error e => Except.error e
  | Except.ok _ =>
    match diff with
    | Diff.sparse indices values =>
      Except.ok
        { data := applySparseUpdate tensor.data indices values tensor.metadata.shape
          metadata :=
            { tensor.metadata with
                version := tensor.metadata.version + 1
                lastUpdated := now } }
    | Diff.dense d =>
      match typedArraySetAll tensor.data d with
      | Except.error e => Except.error e
      | Except.ok newData =>
        Except.ok
          { data := newData
            metadata :=
              { tensor.metadata with
                  version := tensor.metadata.version + 1
                  lastUpdated := now } }
    | Diff.other _ => Except.error "Unknown diff type"

/-- The tensors Map of the global store, modelled by its get/set
behaviour: a partial mapping from names to tensor entities. -/
abbrev TensorStore := String → Option Tensor

/-- The empty tensors Map. -/
def emptyStore : TensorStore := fun _ => none

/-- Map.prototype.set(k, t). -/
def storeSet (store : TensorStore) (k : String) (t : Tensor) : TensorStore :=
  fun q => if q = k then some t else store q

/-- Map.prototype.get(k). -/
def storeGet (store : TensorStore) (k : String) : Option Tensor :=
  store k

/-- handleTensorFull (globalStore.js lines 26-41): stores a fresh entity
under message.name with the message data and shape, version 1, device
cpu and the current time as lastUpdated. -/
def handleTensorFull (store : TensorStore) (name : String) (data : List Scalar)
    (shape : List Nat) (dtype : String) (now : Nat) : TensorStore :=
  storeSet store name
    { data := data
      metadata :=
        { version := 1
          shape := shape
          dtype := dtype
          device := "cpu"
          lastUpdated := now } }

/-- The tensor_diff branch of handleTensorDiffOrUpdate (globalStore.js
lines 68-76) acting on one entity: try to validate and apply the diff
and stamp lastUpdated; a thrown error is caught and only logged, leaving
the entity exactly as it was.  applyTensorDiff performs no mutation
before any of its throw sites, so the catch never observes an entity
with the diff applied in part. -/
def handleTensorDiffEntity (tensor : Tensor) (diff : Diff) (now : Nat) : Tensor :=
  match validateDiff diff tensor.metadata.shape with
  | Except.error _ => tensor
  | Except.ok _ =>
    match applyTensorDiff tensor diff now with
    | Except.error _ => tensor
    | Except.ok t => { t with metadata := { t.metadata with lastUpdated := now } }

/-- handleTensorDiffOrUpdate (globalStore.js lines 43-78) for a
tensor_diff message: fetches the entity (creating a default with an
empty buffer, version 0 and the message shape when absent) and runs the
validate/apply/stamp sequence on it. -/
def handleTensorDiffMsg (store : TensorStore) (name : String) (diff : Diff)
    (msgShape : List Nat) (msgDtype : String) (now : Nat) : TensorStore :=
  match storeGet store name with
  | some t => storeSet store name (handleTensorDiffEntity t diff now)
  | none =>
    let t : Tensor :=
      { data := []
        metadata :=
          { version := 0
            shape := msgShape
            dtype := msgDtype
            device := "cpu"
            lastUpdated := now } }
    storeSet store name (handleTensorDiffEntity t diff now)

/-- A decoded message envelope.  The has flags model
Object.prototype.hasOwnProperty for each field the validator inspects;
the content fields carry the values a store reads when present.  The
type field is always present because dispatch reads it. -/
structure Envelope where
  type : String
  hasName : Bool
  hasData : Bool
  hasTensor : Bool
  hasValue : Bool
  hasTimestamp : Bool
  name : String
  value : Scalar
  timestamp : Nat
deriving DecidableEq

/-- validateWebSocketMessage (part_002 lines 144-154): the type must be
one of tensor_update, breakpoint_hit, metric_update, and every required
field for that type must be present (tensor_update: type, name, data;
breakpoint_hit: type, name, tensor; metric_update: type, name, value,
timestamp).  The type field itself is present by construction. -/
def validateWebSocketMessage (m : Envelope) : Bool :=
  if m.type = "tensor_update" then m.hasName && m.hasData
  else if m.type = "breakpoint_hit" then m.hasName && m.hasTensor
  else if m.type = "metric_update" then m.hasName && m.hasValue && m.hasTimestamp
  else false

/-- One entry of metricData: the push of addMetricData stores the
message timestamp and a one-key values object for the metric name. -/
structure MetricPoint where
  timestamp : Nat
  metricName : String
  value : Scalar
deriving DecidableEq

/-- The metrics slice of the store state (metricsStore.js). -/
structure MetricsState where
  availableMetrics : List String
  selectedMetrics : List String
  metricData : List MetricPoint
deriving DecidableEq

/-- addMetricData (metricsStore.js): registers an unseen name into
availableMetrics, appends the sample to metricData and trims the array
from the front to at most MAX_DATA_POINTS = 1000 entries. -/
def addMetricData (s : MetricsState) (m : Envelope) : MetricsState :=
  let avail :=
    if s.availableMetrics.contains m.name then s.availableMetrics
    else s.availableMetrics ++ [m.name]
  let dat := s.metricData ++ [{ timestamp := m.timestamp, metricName := m.name, value := m.value }]
  let dat := if 1000 < dat.length then dat.drop (dat.length - 1000) else dat
  { s with availableMetrics := avail, metricData := dat }

/-- The metric_update path of handleMessage (part_005 lines 79-100): an
envelope failing validateWebSocketMessage is dropped before dispatch; a
valid metric_update is dispatched to the metrics store; other types do
not touch the metrics state. -/
def handleMessage (s : MetricsState) (m : Envelope) : MetricsState :=
  if validateWebSocketMessage m then
    if m.type = "metric_update" then addMetricData s m else s
  else
    s

/-- maxReconnectAttempts, set in the WebSocketClient constructor. -/
def maxReconnectAttempts : Nat := 5

/-- The delay computed by scheduleReconnect (part_005 line 128 and
wsClient.js lines 87 and 216): Math.min(1000 * Math.pow(2, attempts),
30000), read from the attempt counter before it is incremented. -/
def reconnectDelay (attempts : Nat) : Nat :=
  min (1000 * 2 ^ attempts) 30000

/-- scheduleReconnect: computes the delay from the current counter
value, then increments the counter (the ++ on the line after the delay
computation), and arms a timer for that delay. -/
def scheduleReconnect (attempts : Nat) : Nat × Nat :=
  (reconnectDelay attempts, attempts + 1)

/-- The delays produced by n consecutive scheduleReconnect calls
starting from the given counter value (each disconnect between
successful opens triggers one call). -/
def reconnectDelays : Nat → Nat → List Nat
  | _, 0 => []
  | attempts, Nat.succ n =>
    (scheduleReconnect attempts).1 :: reconnectDelays (scheduleReconnect attempts).2 n

/-- Connection state of the WebSocketClient defined in
src/ui/src/services/wsClient.js lines 136-266 (the variant whose close
method is at lines 259-265).  socketLive models this.socket being
non-null, started models the initialized flag, and scheduledReconnects
counts the setTimeout(connect, delay) timers armed so far. -/
structure Ws2State where
  socketLive : Bool
  reconnectAttempts : Nat
  isClosedManually : Bool
  started : Bool
  scheduledReconnects : Nat
deriving DecidableEq

/-- The state of a freshly constructed client (constructor, lines
137-145). -/
def ws2Fresh : Ws2State :=
  { socketLive := false
    reconnectAttempts := 0
    isClosedManually := false
    started := false
    scheduledReconnects := 0 }

/-- connect (wsClient.js lines 157-165): returns early when a socket
already exists or the client was closed manually; otherwise opens one. -/
def ws2Connect (s : Ws2State) : Ws2State :=
  if s.socketLive || s.isClosedManually then s else { s with socketLive := true }

/-- The startup method (wsClient.js lines 148-154): guarded by the
started flag, resets isClosedManually to false and calls connect. -/
def ws2Start (s : Ws2State) : Ws2State :=
  if s.started then s
  else ws2Connect { s with started := true, isClosedManually := false }

/-- close (wsClient.js lines 260-265): the body executed on a manual
close.  Despite the comment above it, line 261 assigns
this.isClosedManually = false, and the socket.close() call is commented
out. -/
def ws2Close (s : Ws2State) : Ws2State :=
  { s with isClosedManually := false }

/-- handleClose (wsClient.js lines 201-207): the socket is cleared and,
when the client was not closed manually and attempts remain below the
maximum, scheduleReconnect arms a timer and increments the counter. -/
def ws2HandleClose (s : Ws2State) : Ws2State :=
  let s1 := { s with socketLive := false }
  if !s1.isClosedManually && decide (s1.reconnectAttempts < maxReconnectAttempts) then
    { s1 with
        reconnectAttempts := (scheduleReconnect s1.reconnectAttempts).2
        scheduledReconnects := s1.scheduledReconnects + 1 }
  else
    s1

/-! ## Helper lemmas -/

/-- generateDiff returns null exactly when the first pass found no
changed element. -/
theorem generateDiff_none_iff (oldData newData : List Scalar) (t ms : Scalar) :
    generateDiff oldData newData t ms = none ↔
      changedIndices oldData newData t = [] := by
  simp only [generateDiff]
  cases hc : changedIndices oldData newData t with
  | nil => simp
  | cons a l =>
    simp only [List.isEmpty_cons]
    split_ifs <;> simp_all

/-! ## Claim theorems -/

/-- Claim C1 (refuted by evaluation, the code contradicts the intended
round trip): for A = [5, 1, 1] and B = [7, 1, 1] of shape [3] with the
default threshold 0.01 and maxSparsity 0.5, generateDiff yields the
sparse diff with delta value 2 at index 0, but applyTensorDiff assigns
that delta instead of adding it, producing the buffer [2, 1, 1], which
differs from B. -/
theorem sparse_roundtrip_fails :
    generateDiff [5, 1, 1] [7, 1, 1] (1 / 100) (1 / 2)
        = some (Diff.sparse [0] [2])
    ∧ Except.map Tensor.data
        (applyTensorDiff
          { data := [5, 1, 1]
            metadata := { version := 1, shape := [3], dtype := "float32",
                          device := "cpu", lastUpdated := 0 } }
          (Diff.sparse [0] [2]) 9)
        = Except.ok [2, 1, 1]
    ∧ ([2, 1, 1] : List Scalar) ≠ [7, 1, 1] := by
  refine ⟨?_, rfl, by decide⟩
  have h0 : changedAt [5, 1, 1] [7, 1, 1] (1 / 100) 0 = true := by
    unfold changedAt; norm_num
  have h1 : changedAt [5, 1, 1] [7, 1, 1] (1 / 100) 1 = false := by
    unfold changedAt; norm_num
  have h2 : changedAt [5, 1, 1] [7, 1, 1] (1 / 100) 2 = false := by
    unfold changedAt; norm_num
  have hc : changedIndices [5, 1, 1] [7, 1, 1] (1 / 100) = [0] := by
    unfold changedIndices
    rw [show List.range (List.length ([5, 1, 1] : List Scalar)) = [0, 1, 2] from rfl]
    simp only [List.filter_cons, List.filter_nil, h0, h1, h2]
    simp
  simp only [generateDiff]
  rw [hc]
  norm_num

/-- Claim C2 (refuted by evaluation): sparse application performs the
assignment buffer[index] = value, not buffer[index] += value.  On the
buffer [5, 1, 1] with shape [3], the sparse diff (index 0, value 2)
produces [2, 1, 1] rather than [7, 1, 1], and applying the same diff a
second time produces [2, 1, 1] again, so the operation is idempotent
and the changed values do not double (an additive apply would have given
[9, 1, 1] after two applications). -/
theorem sparse_apply_assigns_and_is_idempotent :
    Except.map Tensor.data
        (applyTensorDiff
          { data := [5, 1, 1]
            metadata := { version := 1, shape := [3], dtype := "float32",
                          device := "cpu", lastUpdated := 0 } }
          (Diff.sparse [0] [2]) 1)
        = Except.ok [2, 1, 1]
    ∧ Except.map Tensor.data
        (Except.bind
          (applyTensorDiff
            { data := [5, 1, 1]
              metadata := { version := 1, shape := [3], dtype := "float32",
                            device := "cpu", lastUpdated := 0 } }
            (Diff.sparse [0] [2]) 1)
          (fun t1 => applyTensorDiff t1 (Diff.sparse [0] [2]) 2))
        = Except.ok [2, 1, 1]
    ∧ ([2, 1, 1] : List Scalar) ≠ [7, 1, 1] :=
  ⟨rfl, rfl, by decide⟩

/-- Claim C3, counterexample: applying the dense diff [5] to an entity
of shape [1] at version 1 succeeds and leaves the entity at version 2,
so applyTensorDiff does not leave the version field unchanged. -/
theorem applyTensorDiff_changes_version_counterexample :
    Except.map (fun t => t.metadata.version)
        (applyTensorDiff
          { data := [0]
            metadata := { version := 1, shape := [1], dtype := "float32",
                          device := "cpu", lastUpdated := 0 } }
          (Diff.dense [5]) 7)
        = Except.ok 2
    ∧ (2 : Nat) ≠ 1 :=
  ⟨rfl, by decide⟩

/-- Claim C3 as amended: applyTensorDiff increments
entity.metadata.version by exactly one on every diff it applies
successfully (part_003 line 161), and handleTensorFull stores the
entity with version 1. -/
theorem applyTensorDiff_version_semantics :
    (∀ (tensor : Tensor) (diff : Diff) (now : Nat) (t : Tensor),
        applyTensorDiff tensor diff now = Except.ok t →
        t.metadata.version = tensor.metadata.version + 1)
    ∧ (∀ (store : TensorStore) (name : String) (data : List Scalar)
        (shape : List Nat) (dtype : String) (now : Nat),
        storeGet (handleTensorFull store name data shape dtype now) name
          = some { data := data
                   metadata := { version := 1, shape := shape, dtype := dtype,
                                 device := "cpu", lastUpdated := now } }) := by
  constructor
  · intro tensor diff now t h
    unfold applyTensorDiff at h
    split at h
    · exact Except.noConfusion h
    · split at h
      · cases h; rfl
      · split at h
        · exact Except.noConfusion h
        · cases h; rfl
      · exact Except.noConfusion h
  · intro store name data shape dtype now
    unfold handleTensorFull storeGet storeSet
    simp

/-- Witness for the amended claim C3 at a concrete input: applying the
dense diff [5] at time 7 to the version-1 entity of shape [1] gives a
version-2 entity. -/
theorem applyTensorDiff_version_semantics_witness :
    ({ data := [5]
       metadata := { version := 2, shape := [1], dtype := "float32",
                     device := "cpu", lastUpdated := 7 } } : Tensor).metadata.version
      = ({ data := [0]
           metadata := { version := 1, shape := [1], dtype := "float32",
                         device := "cpu", lastUpdated := 0 } } : Tensor).metadata.version + 1 :=
  applyTensorDiff_version_semantics.1
    { data := [0]
      metadata := { version := 1, shape := [1], dtype := "float32",
                    device := "cpu", lastUpdated := 0 } }
    (Diff.dense [5]) 7
    { data := [5]
      metadata := { version := 2, shape := [1], dtype := "float32",
                    device := "cpu", lastUpdated := 7 } }
    rfl

/-- Claim C4, counterexample: starting from a freshly opened connection
(attempt counter 0), the five scheduled delays are not the sequence
2000, 4000, 8000, 16000, 30000 claimed by the spec. -/
theorem reconnect_backoff_claimed_sequence_false :
    reconnectDelays 0 5 ≠ [2000, 4000, 8000, 16000, 30000] := by
  decide

/-- Claim C4 as amended: scheduleReconnect computes the delay from the
counter value before incrementing it, so from a freshly opened
connection the delays for reconnect attempts 1 through 5 are 1000,
2000, 4000, 8000 and 16000 milliseconds; the 30000 cap is never reached
within the five permitted attempts. -/
theorem reconnect_backoff_first_five_delays :
    reconnectDelays 0 5 = [1000, 2000, 4000, 8000, 16000]
    ∧ scheduleReconnect 0 = (1000, 1) := by
  constructor
  · decide
  · rfl

/-- Claim C7 (refuted by evaluation of the wsClient.js client, whose
close method at lines 259-265 assigns isClosedManually = false despite
the comment above it): after startup, close() and a subsequent socket
close event, a reconnect timer has been armed (scheduledReconnects = 1),
the manual-close flag is still false, and connect() opens a new socket,
so the manual close is not sticky. -/
theorem ws2_manual_close_not_sticky :
    (ws2HandleClose (ws2Close (ws2Start ws2Fresh))).scheduledReconnects = 1
    ∧ (ws2HandleClose (ws2Close (ws2Start ws2Fresh))).isClosedManually = false
    ∧ (ws2Connect (ws2HandleClose (ws2Close (ws2Start ws2Fresh)))).socketLive = true := by
  decide

/-- Claim C9: loading the scalar tensor attention_input from the
tensor_full message with data [5] and empty shape stores a one-element
buffer [5] at version 1, and a subsequent tensor_diff message with the
unknown tag no_change fails validation and leaves the stored entity
exactly as it was. -/
theorem scalar_tensor_full_then_no_change :
    storeGet (handleTensorFull emptyStore "attention_input" [5] [] "int64" 100)
        "attention_input"
      = some { data := [5]
               metadata := { version := 1, shape := [], dtype := "int64",
                             device := "cpu", lastUpdated := 100 } }
    ∧ storeGet
        (handleTensorDiffMsg
          (handleTensorFull emptyStore "attention_input" [5] [] "int64" 100)
          "attention_input" (Diff.other "no_change") [] "float32" 200)
        "attention_input"
      = some { data := [5]
               metadata := { version := 1, shape := [], dtype := "int64",
                             device := "cpu", lastUpdated := 100 } } := by
  constructor
  · decide
  · decide

/-- Claim C10: validateDiff only bounds sparse indices from above.  The
sparse diff with index list [-1] and value list [5] passes validation
against every shape, because -1 never satisfies idx >= elementCount and
the two lists have equal length, so the negative out-of-range index
reaches diff application. -/
theorem validateDiff_accepts_negative_sparse_index (shape : List Nat) :
    validateDiff (Diff.sparse [-1] [5]) shape = Except.ok () := by
  have hany :
      ([(-1 : Int)].any (fun idx => decide ((elementCount shape : Int) ≤ idx)))
        = false := by
    simp only [List.any_cons, List.any_nil, Bool.or_false, decide_eq_false_iff_not]
    omega
  simp only [validateDiff]
  rw [hany]
  simp

/-- Witness for claim C10 at the concrete shape [2, 3]. -/
theorem validateDiff_accepts_negative_sparse_index_witness :
    validateDiff (Diff.sparse [-1] [5]) [2, 3] = Except.ok () :=
  validateDiff_accepts_negative_sparse_index [2, 3]

/-- Claim C5: for equal-length buffers, generateDiff returns null
exactly when every absolute delta is at most the threshold; otherwise,
writing ratio for the number of changed elements divided by the buffer
length, it returns the sparse delta diff when ratio is at most
maxSparsity (the boundary case included, the comparison being
non-strict) and the dense full-replacement diff when ratio exceeds
maxSparsity. -/
theorem generateDiff_selection (oldData newData : List Scalar) (t ms : Scalar)
    (hlen : newData.length = oldData.length) :
    (generateDiff oldData newData t ms = none ↔
        ∀ i, i < oldData.length → |newData.getD i 0 - oldData.getD i 0| ≤ t)
    ∧ (changedIndices oldData newData t ≠ [] →
        ((changedIndices oldData newData t).length : Scalar)
            / (oldData.length : Scalar) ≤ ms →
        generateDiff oldData newData t ms
          = some (Diff.sparse
              ((changedIndices oldData newData t).map (fun i => (i : Int)))
              ((changedIndices oldData newData t).map
                (fun i => newData.getD i 0 - oldData.getD i 0))))
    ∧ (changedIndices oldData newData t ≠ [] →
        ms < ((changedIndices oldData newData t).length : Scalar)
            / (oldData.length : Scalar) →
        generateDiff oldData newData t ms = some (Diff.dense newData)) := by
  have hEmp : ∀ h : changedIndices oldData newData t ≠ [],
      (changedIndices oldData newData t).isEmpty = false := by
    intro h
    cases hc : changedIndices oldData newData t with
    | nil => exact absurd hc h
    | cons a l => rfl
  refine ⟨?_, ?_, ?_⟩
  · rw [generateDiff_none_iff oldData newData t ms]
    unfold changedIndices
    rw [List.filter_eq_nil_iff]
    constructor
    · intro h i hi
      have hb := h i (List.mem_range.mpr hi)
      unfold changedAt at hb
      rw [if_pos (show i < newData.length by omega)] at hb
      simp only [decide_eq_true_eq] at hb
      exact not_lt.mp hb
    · intro h i hi
      have hi2 : i < oldData.length := List.mem_range.mp hi
      unfold changedAt
      rw [if_pos (show i < newData.length by omega)]
      simp only [decide_eq_true_eq]
      exact not_lt.mpr (h i hi2)
  · intro hne hle
    simp only [generateDiff]
    rw [hEmp hne]
    rw [if_neg (by simp), if_pos hle]
  · intro hne hgt
    simp only [generateDiff]
    rw [hEmp hne]
    rw [if_neg (by simp), if_neg (not_le.mpr hgt)]

/-- Witness for claim C5: with threshold 0 and maxSparsity 1 the pair
old = [0], new = [1] has one changed element, ratio 1, and generateDiff
selects the sparse diff with index 0 and delta value 1. -/
theorem generateDiff_selection_witness :
    generateDiff [(0 : Scalar)] [1] 0 1 = some (Diff.sparse [0] [1]) := by
  have h0 : changedAt [(0 : Scalar)] [1] 0 0 = true := by
    unfold changedAt; simp
  have hc : changedIndices [(0 : Scalar)] [1] 0 = [0] := by
    unfold changedIndices
    rw [show List.range (List.length ([(0 : Scalar)] : List Scalar)) = [0] from rfl]
    simp [h0]
  have h := (generateDiff_selection [0] [1] 0 1 rfl).2.1
    (by rw [hc]; simp)
    (by rw [hc]; simp)
  rw [hc] at h
  simpa using h

/-- Claim C6: when a diff fails validation against the current entity
shape (out-of-bounds sparse index, values and indices length mismatch,
dense payload of the wrong length, or an unknown diff type), the store
path that handles a tensor_diff message returns the entity completely
unchanged: buffer, shape, version and lastUpdated are all exactly as
before, the error having been caught and logged instead of propagated,
and no part of the diff is applied. -/
theorem invalid_diff_leaves_entity_unchanged (tensor : Tensor) (diff : Diff)
    (now : Nat) (e : String)
    (h : validateDiff diff tensor.metadata.shape = Except.error e) :
    handleTensorDiffEntity tensor diff now = tensor := by
  unfold handleTensorDiffEntity
  rw [h]

/-- Witness for claim C6: the unknown-type diff no_change fails
validation against the scalar shape and leaves the concrete entity
untouched. -/
theorem invalid_diff_leaves_entity_unchanged_witness :
    handleTensorDiffEntity
        { data := [5]
          metadata := { version := 1, shape := [], dtype := "int64",
                        device := "cpu", lastUpdated := 0 } }
        (Diff.other "no_change") 3
      = { data := [5]
          metadata := { version := 1, shape := [], dtype := "int64",
                        device := "cpu", lastUpdated := 0 } } :=
  invalid_diff_leaves_entity_unchanged _ (Diff.other "no_change") 3
    "Unknown diff type" rfl

/-- Claim C8: a metric_update envelope without the timestamp field is
rejected by validateWebSocketMessage, so the transport handleMessage
drops it before dispatch and the metrics state, availableMetrics and
metricData included, is exactly unchanged. -/
theorem metric_update_without_timestamp_is_dropped (s : MetricsState)
    (m : Envelope) (htype : m.type = "metric_update")
    (hts : m.hasTimestamp = false) :
    handleMessage s m = s := by
  have hv : validateWebSocketMessage m = false := by
    unfold validateWebSocketMessage
    rw [htype, hts]
    rw [if_neg (show ¬ (("metric_update" : String) = "tensor_update") by decide)]
    rw [if_neg (show ¬ (("metric_update" : String) = "breakpoint_hit") by decide)]
    rw [if_pos rfl]
    simp
  unfold handleMessage
  rw [hv]
  simp

/-- Witness for claim C8: a concrete metric_update envelope with name
and value but no timestamp leaves a concrete metrics state unchanged. -/
theorem metric_update_without_timestamp_is_dropped_witness :
    handleMessage
        { availableMetrics := ["loss"], selectedMetrics := [],
          metricData := [{ timestamp := 3, metricName := "loss", value := 1 }] }
        { type := "metric_update", hasName := true, hasData := false,
          hasTensor := false, hasValue := true, hasTimestamp := false,
          name := "loss", value := 2, timestamp := 0 }
      = { availableMetrics := ["loss"], selectedMetrics := [],
          metricData := [{ timestamp := 3, metricName := "loss", value := 1 }] } :=
  metric_update_without_timestamp_is_dropped _ _ rfl rfl

end Transviz
